import Mathlib

/-!
Verification of the NeMo automodel SFT tutorial notebook
(tutorials/llm/automodel/sft.ipynb).

The notebook is orchestration code: it defines one data-module subclass,
one helper function (make_strategy), sets a handful of configuration
variables, and calls into external libraries (lightning, nemo, fiddle,
transformers).  Two layers of embedding are used here:

1. a functional embedding of the one function with branching logic,
   make_strategy, where the externally-defined strategy constructors are
   modelled as inductive constructors recording the arguments they are
   passed (they are pass-through objects from the notebook's point of view);

2. a syntactic embedding of every code cell of the notebook as a small
   Python abstract-syntax tree, over which the structural claims (order
   of operations, absence of error handling, boundary interactions,
   verbatim argument wiring) are stated and decided.

All scans over the AST are fuel-indexed so that they are structurally
recursive and reduce inside the kernel; the fuel is always instantiated
with a constant far above the (fixed, small) depth of the notebook.
-/

/-! ## Functional embedding of make_strategy and its collaborators -/

/-- The model object built by llm.HFAutoModelForCausalLM(model_name=...).
External to the notebook; recorded by the argument it is passed. -/
structure HFAutoModelForCausalLM where
  model_name : String
deriving DecidableEq, Repr

/-- The checkpoint-saving object returned by model.make_checkpoint_io(...).
External to the notebook; recorded by the receiver and the argument. -/
structure HFCheckpointSaver where
  model : HFAutoModelForCausalLM
  adapter_only : Bool
deriving DecidableEq, Repr

/-- model.make_checkpoint_io(adapter_only=...) as the notebook calls it:
a pass-through into the external model object, recorded verbatim. -/
def HFAutoModelForCausalLM.make_checkpoint_io (model : HFAutoModelForCausalLM)
    (adapter_only : Bool) : HFCheckpointSaver :=
  { model := model, adapter_only := adapter_only }

/-- The three externally-defined strategy objects the notebook can return
from make_strategy, each recording the arguments of its construction:
pl.strategies.DDPStrategy, nl.FSDP2Strategy, pl.strategies.SingleDeviceStrategy. -/
inductive Strategy where
  | DDPStrategy (checkpoint_io : HFCheckpointSaver)
  | FSDP2Strategy (data_parallel_size : Nat) (tensor_parallel_size : Nat)
      (checkpoint_io : HFCheckpointSaver)
  | SingleDeviceStrategy (device : String) (checkpoint_io : HFCheckpointSaver)
deriving DecidableEq, Repr

/-- The checkpoint_io argument every branch of make_strategy passes to its
strategy constructor. -/
def Strategy.checkpoint_io : Strategy → HFCheckpointSaver
  | .DDPStrategy c => c
  | .FSDP2Strategy _ _ c => c
  | .SingleDeviceStrategy _ c => c

/-- make_strategy(strategy, model, devices, num_nodes, adapter_only=False)
from the notebook, transcribed branch for branch: a three-way conditional
on the strategy string. -/
def make_strategy (strategy : String) (model : HFAutoModelForCausalLM)
    (devices : Nat) (num_nodes : Nat) (adapter_only : Bool := false) : Strategy :=
  if strategy = "ddp" then
    Strategy.DDPStrategy (model.make_checkpoint_io adapter_only)
  else if strategy = "fsdp2" then
    Strategy.FSDP2Strategy (devices * num_nodes) 1 (model.make_checkpoint_io adapter_only)
  else
    Strategy.SingleDeviceStrategy "cuda:0" (model.make_checkpoint_io adapter_only)

/-! ## The notebook's configuration cell (Step 2), value for value -/

/-- model_name from the configuration cell. -/
def model_name : String := "meta-llama/Llama-3.2-1B"

/-- strategy from the configuration cell (the initial string flag; the same
variable is later rebound to the strategy object in the training cell). -/
def strategy : String := ""

/-- max_steps from the configuration cell. -/
def max_steps : Nat := 100

/-- accelerator from the configuration cell. -/
def accelerator : String := "gpu"

/-- num_devices from the configuration cell. -/
def num_devices : Nat := 2

/-- wandb_name from the configuration cell. -/
def wandb_name : Option String := none

/-- use_torch_jit from the configuration cell. -/
def use_torch_jit : Bool := false

/-- ckpt_folder from the configuration cell. -/
def ckpt_folder : String := "/opt/checkpoints/automodel_experiments/"

/-! ## Claims C1, C9, C10: make_strategy -/

/-- C1: make_strategy is a three-way conditional on the strategy string —
DDPStrategy for "ddp", FSDP2Strategy with data_parallel_size devices*num_nodes
and tensor_parallel_size 1 for "fsdp2", and SingleDeviceStrategy on device
"cuda:0" for every other string. -/
theorem make_strategy_three_way (model : HFAutoModelForCausalLM)
    (devices num_nodes : Nat) (adapter_only : Bool) (s : String)
    (hd : s ≠ "ddp") (hf : s ≠ "fsdp2") :
    make_strategy "ddp" model devices num_nodes adapter_only =
      Strategy.DDPStrategy (model.make_checkpoint_io adapter_only) ∧
    make_strategy "fsdp2" model devices num_nodes adapter_only =
      Strategy.FSDP2Strategy (devices * num_nodes) 1 (model.make_checkpoint_io adapter_only) ∧
    make_strategy s model devices num_nodes adapter_only =
      Strategy.SingleDeviceStrategy "cuda:0" (model.make_checkpoint_io adapter_only) := by
  refine ⟨rfl, rfl, ?_⟩
  unfold make_strategy
  rw [if_neg hd, if_neg hf]

/-- C1 witness: the three-way split evaluated at the notebook's own model and
device count, taking "dummy" as a string that is neither "ddp" nor "fsdp2". -/
theorem make_strategy_three_way_witness :
    make_strategy "ddp" ⟨"meta-llama/Llama-3.2-1B"⟩ 2 1 false =
      Strategy.DDPStrategy ⟨⟨"meta-llama/Llama-3.2-1B"⟩, false⟩ ∧
    make_strategy "fsdp2" ⟨"meta-llama/Llama-3.2-1B"⟩ 2 1 false =
      Strategy.FSDP2Strategy 2 1 ⟨⟨"meta-llama/Llama-3.2-1B"⟩, false⟩ ∧
    make_strategy "dummy" ⟨"meta-llama/Llama-3.2-1B"⟩ 2 1 false =
      Strategy.SingleDeviceStrategy "cuda:0" ⟨⟨"meta-llama/Llama-3.2-1B"⟩, false⟩ :=
  make_strategy_three_way ⟨"meta-llama/Llama-3.2-1B"⟩ 2 1 false "dummy"
    (by decide) (by decide)

/-- C9: every branch of make_strategy wires
checkpoint_io = model.make_checkpoint_io(adapter_only=adapter_only) into the
strategy it constructs, and a call that omits adapter_only gets the default
False, hence full (non-adapter-only) HF-format checkpoint saving. -/
theorem make_strategy_checkpoint_io_invariant :
    (∀ (s : String) (model : HFAutoModelForCausalLM) (d n : Nat) (a : Bool),
      Strategy.checkpoint_io (make_strategy s model d n a) =
        model.make_checkpoint_io a) ∧
    (∀ (s : String) (model : HFAutoModelForCausalLM) (d n : Nat),
      Strategy.checkpoint_io (make_strategy s model d n) =
        { model := model, adapter_only := false }) := by
  constructor
  · intro s model d n a
    unfold make_strategy
    split
    · rfl
    · split <;> rfl
  · intro s model d n
    unfold make_strategy
    split
    · rfl
    · split <;> rfl

/-- C10: with the notebook's configured values strategy = "" and
num_devices = 2, make_strategy takes its default branch and returns a
SingleDeviceStrategy pinned to "cuda:0"; and for every strategy string other
than exactly "ddp" or "fsdp2" the function returns normally with the
single-device strategy (the source has no raise statement, so no error is
signalled; in the embedding the function is total into Strategy). -/
theorem default_branch_single_device (model : HFAutoModelForCausalLM)
    (d n : Nat) (a : Bool) (s : String) (hd : s ≠ "ddp") (hf : s ≠ "fsdp2") :
    strategy = "" ∧ num_devices = 2 ∧
    make_strategy strategy model num_devices 1 =
      Strategy.SingleDeviceStrategy "cuda:0" (model.make_checkpoint_io false) ∧
    make_strategy s model d n a =
      Strategy.SingleDeviceStrategy "cuda:0" (model.make_checkpoint_io a) := by
  refine ⟨rfl, rfl, rfl, ?_⟩
  unfold make_strategy
  rw [if_neg hd, if_neg hf]

/-- C10 witness: the notebook's configuration evaluated concretely, with the
misspelled string "fsdp" as the generic non-matching case. -/
theorem default_branch_single_device_witness :
    strategy = "" ∧ num_devices = 2 ∧
    make_strategy strategy ⟨"meta-llama/Llama-3.2-1B"⟩ num_devices 1 =
      Strategy.SingleDeviceStrategy "cuda:0" ⟨⟨"meta-llama/Llama-3.2-1B"⟩, false⟩ ∧
    make_strategy "fsdp" ⟨"meta-llama/Llama-3.2-1B"⟩ 2 1 true =
      Strategy.SingleDeviceStrategy "cuda:0" ⟨⟨"meta-llama/Llama-3.2-1B"⟩, true⟩ :=
  default_branch_single_device ⟨"meta-llama/Llama-3.2-1B"⟩ 2 1 true "fsdp"
    (by decide) (by decide)

/-! ## Syntactic embedding: a Python AST for the notebook's code cells -/

/-- Python expressions, restricted to the forms the notebook uses.
fstring covers the one interpolation shape appearing in the file,
a literal prefix, one interpolated expression, a literal suffix. -/
inductive PyExpr where
  | strLit (s : String)
  | intLit (n : Nat)
  | floatLit (lit : String)
  | boolLit (b : Bool)
  | noneLit
  | name (x : String)
  | attr (obj : PyExpr) (field : String)
  | subscript (obj : PyExpr) (idx : PyExpr)
  | call (fn : PyExpr) (args : List PyExpr) (kwargs : List (String × PyExpr))
      (splat : List String)
  | binop (op : String) (lhs : PyExpr) (rhs : PyExpr)
  | ifExp (body : PyExpr) (test : PyExpr) (orelse : PyExpr)
  | listLit (elts : List PyExpr)
  | dictLit (entries : List (String × PyExpr))
  | fstring (pre : String) (interp : PyExpr) (post : String)
deriving Repr

/-- Python statements, restricted to the forms the notebook uses, plus the
error-handling and looping forms (tryExcept, whileLoop, forLoop, withStmt,
raiseStmt) whose absence from the notebook several claims assert. -/
inductive PyStmt where
  | importMod (mod : String) (asName : Option String)
  | importFrom (mod : String) (names : List (String × Option String))
  | assign (target : PyExpr) (value : PyExpr)
  | exprStmt (e : PyExpr)
  | ret (e : PyExpr)
  | ifStmt (test : PyExpr) (body : List PyStmt) (orelse : List PyStmt)
  | funcDef (nm : String) (params : List String)
      (defaults : List (String × PyExpr)) (kwParam : Option String)
      (retAnn : Option String) (body : List PyStmt)
  | classDef (nm : String) (base : PyExpr) (body : List PyStmt)
  | tryExcept (body : List PyStmt) (handlers : List (String × List PyStmt))
  | whileLoop (test : PyExpr) (body : List PyStmt)
  | forLoop (target : String) (iter : PyExpr) (body : List PyStmt)
  | withStmt (ctx : PyExpr) (body : List PyStmt)
  | raiseStmt (e : PyExpr)
deriving Repr

/-! ## The notebook's code cells, statement for statement -/

/-- Cell 1 (Step 1): the import cell. -/
def cell1 : List PyStmt :=
  [ .importFrom "functools" [("partial", none)],
    .importMod "fiddle" (some "fdl"),
    .importMod "lightning.pytorch" (some "pl"),
    .importFrom "lightning.pytorch.loggers" [("WandbLogger", none)],
    .importFrom "torch.utils.data" [("DataLoader", none)],
    .importFrom "nemo" [("lightning", some "nl")],
    .importFrom "nemo.collections" [("llm", none)],
    .importFrom "nemo.lightning.pytorch.callbacks" [("JitConfig", none), ("JitTransform", none)] ]

/-- The DataLoader(...) construction returned by
SquadDataModuleWithPthDataloader._create_dataloader. -/
def dataLoaderCall : PyExpr :=
  .call (.name "DataLoader") [.name "dataset"]
    [ ("num_workers", .attr (.name "self") "num_workers"),
      ("pin_memory", .attr (.name "self") "pin_memory"),
      ("persistent_workers", .attr (.name "self") "persistent_workers"),
      ("collate_fn", .attr (.name "dataset") "collate_fn"),
      ("batch_size", .attr (.name "self") "micro_batch_size") ]
    ["kwargs"]

/-- The method definition _create_dataloader(self, dataset, mode, **kwargs). -/
def createDataloaderDef : PyStmt :=
  .funcDef "_create_dataloader" ["self", "dataset", "mode"] [] (some "kwargs")
    (some "DataLoader")
    [ .ret dataLoaderCall ]

/-- class SquadDataModuleWithPthDataloader(llm.SquadDataModule), with its
docstring and its single method. -/
def squadClassDef : PyStmt :=
  .classDef "SquadDataModuleWithPthDataloader" (.attr (.name "llm") "SquadDataModule")
    [ .exprStmt (.strLit "Creates a squad dataset with a PT dataloader"),
      createDataloaderDef ]

/-- def squad(tokenizer, mbs=1, gbs=2) from cell 2. -/
def squadFuncDef : PyStmt :=
  .funcDef "squad" ["tokenizer", "mbs", "gbs"]
    [("mbs", .intLit 1), ("gbs", .intLit 2)] none (some "pl.LightningDataModule")
    [ .exprStmt (.strLit "Instantiates a SquadDataModuleWithPthDataloader and return it\n\n    Args:\n        tokenizer (AutoTokenizer): the tokenizer to use\n\n    Returns:\n        pl.LightningDataModule: the dataset to train with.\n    "),
      .ret (.call (.name "SquadDataModuleWithPthDataloader") []
        [ ("tokenizer", .name "tokenizer"),
          ("seq_length", .intLit 512),
          ("micro_batch_size", .name "mbs"),
          ("global_batch_size", .name "gbs"),
          ("num_workers", .intLit 0),
          ("dataset_kwargs", .dictLit
            [ ("sanity_check_dist_workers", .boolLit false),
              ("get_attention_mask_from_fusion", .boolLit true) ]) ] []) ]

/-- Cell 2 (Step 1): the data-module subclass and the squad helper. -/
def cell2 : List PyStmt := [squadClassDef, squadFuncDef]

/-- Cell 3 (Step 2): the configuration cell. -/
def cell3 : List PyStmt :=
  [ .assign (.name "model_name") (.strLit "meta-llama/Llama-3.2-1B"),
    .assign (.name "strategy") (.strLit ""),
    .assign (.name "max_steps") (.intLit 100),
    .assign (.name "accelerator") (.strLit "gpu"),
    .assign (.name "num_devices") (.intLit 2),
    .assign (.name "wandb_name") .noneLit,
    .assign (.name "use_torch_jit") (.boolLit false),
    .assign (.name "ckpt_folder") (.strLit "/opt/checkpoints/automodel_experiments/") ]

/-- The HF_TOKEN cell's assignment into the process environment. -/
def hfTokenAssign : PyStmt :=
  .assign (.subscript (.attr (.name "os") "environ") (.strLit "HF_TOKEN"))
    (.strLit "<HF_TOKEN>")

/-- Cell 4: import os; os.environ["HF_TOKEN"] = the token placeholder. -/
def cell4 : List PyStmt := [.importMod "os" none, hfTokenAssign]

/-- The checkpoint_io keyword argument passed in every branch of
make_strategy: model.make_checkpoint_io(adapter_only=adapter_only). -/
def ckptIoArg : PyExpr :=
  .call (.attr (.name "model") "make_checkpoint_io") []
    [("adapter_only", .name "adapter_only")] []

/-- def make_strategy(...) from cell 5, with its docstring and its
three-way conditional body. -/
def makeStrategyDef : PyStmt :=
  .funcDef "make_strategy" ["strategy", "model", "devices", "num_nodes", "adapter_only"]
    [("adapter_only", .boolLit false)] none none
    [ .exprStmt (.strLit "\n    Creates and returns a distributed training strategy based on the provided strategy type.\n\n    Parameters:\n        strategy (str): The name of the strategy ('ddp', 'fsdp2', or other).\n        model: The model instance, which provides a method to create the HF checkpoint IO.\n        devices (int): Number of devices per node.\n        num_nodes (int): Number of compute nodes.\n        adapter_only (bool, optional): Whether to save only adapter-related parameters in the checkpoint. Default is False.\n\n    Returns:\n        A PyTorch Lightning or custom distributed training strategy.\n    "),
      .ifStmt (.binop "==" (.name "strategy") (.strLit "ddp"))
        [ .ret (.call (.attr (.attr (.name "pl") "strategies") "DDPStrategy") []
            [("checkpoint_io", ckptIoArg)] []) ]
        [ .ifStmt (.binop "==" (.name "strategy") (.strLit "fsdp2"))
            [ .ret (.call (.attr (.name "nl") "FSDP2Strategy") []
                [ ("data_parallel_size", .binop "*" (.name "devices") (.name "num_nodes")),
                  ("tensor_parallel_size", .intLit 1),
                  ("checkpoint_io", ckptIoArg) ] []) ]
            [ .ret (.call (.attr (.attr (.name "pl") "strategies") "SingleDeviceStrategy") []
                [ ("device", .strLit "cuda:0"),
                  ("checkpoint_io", ckptIoArg) ] []) ] ] ]

/-- Cell 5: the make_strategy helper. -/
def cell5 : List PyStmt := [makeStrategyDef]

/-- The WandbLogger conditional expression assigned to wandb in the
training cell. -/
def wandbAssign : PyStmt :=
  .assign (.name "wandb")
    (.ifExp
      (.call (.name "WandbLogger") []
        [("project", .strLit "nemo_automodel"), ("name", .name "wandb_name")] [])
      (.binop "is not" (.name "wandb_name") .noneLit)
      .noneLit)

/-- nl.ModelCheckpoint(every_n_train_steps=max_steps // 2,
dirpath=ckpt_folder): the checkpointing callback's construction. -/
def modelCheckpointCall : PyExpr :=
  .call (.attr (.name "nl") "ModelCheckpoint") []
    [ ("every_n_train_steps", .binop "//" (.name "max_steps") (.intLit 2)),
      ("dirpath", .name "ckpt_folder") ] []

/-- callbacks.append(nl.ModelCheckpoint(...)). -/
def checkpointCallbackStmt : PyStmt :=
  .exprStmt (.call (.attr (.name "callbacks") "append") [modelCheckpointCall] [] [])

/-- model = llm.HFAutoModelForCausalLM(model_name=model_name). -/
def modelAssign : PyStmt :=
  .assign (.name "model")
    (.call (.attr (.name "llm") "HFAutoModelForCausalLM") []
      [("model_name", .name "model_name")] [])

/-- strategy = make_strategy(strategy, model, num_devices, 1). -/
def strategyAssign : PyStmt :=
  .assign (.name "strategy")
    (.call (.name "make_strategy")
      [.name "strategy", .name "model", .name "num_devices", .intLit 1] [] [])

/-- trainer = nl.Trainer(...), keyword for keyword. -/
def trainerAssign : PyStmt :=
  .assign (.name "trainer")
    (.call (.attr (.name "nl") "Trainer") []
      [ ("devices", .name "num_devices"),
        ("max_steps", .name "max_steps"),
        ("accelerator", .strLit "gpu"),
        ("strategy", .name "strategy"),
        ("log_every_n_steps", .intLit 1),
        ("limit_val_batches", .floatLit "0.0"),
        ("num_sanity_val_steps", .intLit 0),
        ("accumulate_grad_batches", .intLit 1),
        ("gradient_clip_val", .floatLit "1.0"),
        ("use_distributed_sampler", .boolLit false),
        ("logger", .name "wandb"),
        ("callbacks", .name "callbacks"),
        ("precision", .strLit "bf16") ] [])

/-- llm.HFAutoModelForCausalLM.configure_tokenizer(model_name). -/
def configureTokenizerCall : PyExpr :=
  .call (.attr (.attr (.name "llm") "HFAutoModelForCausalLM") "configure_tokenizer")
    [.name "model_name"] [] []

/-- The data argument both finetune calls pass:
squad(llm.HFAutoModelForCausalLM.configure_tokenizer(model_name), gbs=1). -/
def squadDataArg : PyExpr :=
  .call (.name "squad") [configureTokenizerCall] [("gbs", .intLit 1)] []

/-- The optim argument both finetune calls pass:
fdl.build(llm.adam.pytorch_adam_with_flat_lr(lr=1e-5)). -/
def optimArg : PyExpr :=
  .call (.attr (.name "fdl") "build")
    [ .call (.attr (.attr (.name "llm") "adam") "pytorch_adam_with_flat_lr") []
        [("lr", .floatLit "1e-5")] [] ] [] []

/-- llm.api.finetune(..., peft=None, log=None): the SFT call of cell 6. -/
def finetuneSftStmt : PyStmt :=
  .exprStmt (.call (.attr (.attr (.name "llm") "api") "finetune") []
    [ ("model", .name "model"),
      ("data", squadDataArg),
      ("trainer", .name "trainer"),
      ("optim", optimArg),
      ("peft", .noneLit),
      ("log", .noneLit) ] [])

/-- Cell 6 (Step 2): logger, callbacks, model, strategy, trainer, finetune. -/
def cell6 : List PyStmt :=
  [ wandbAssign,
    .assign (.name "callbacks") (.listLit []),
    .ifStmt (.name "use_torch_jit")
      [ .assign (.name "jit_config")
          (.call (.name "JitConfig") []
            [ ("use_torch", .boolLit true),
              ("torch_kwargs", .dictLit [("dynamic", .boolLit false)]),
              ("use_thunder", .boolLit false) ] []),
        .assign (.name "callbacks")
          (.listLit [.call (.name "JitTransform") [.name "jit_config"] [] []]) ]
      [],
    checkpointCallbackStmt,
    modelAssign,
    strategyAssign,
    trainerAssign,
    finetuneSftStmt ]

/-- llm.api.finetune(..., peft=llm.peft.LoRA(...)): the PEFT variant of cell 7. -/
def finetunePeftStmt : PyStmt :=
  .exprStmt (.call (.attr (.attr (.name "llm") "api") "finetune") []
    [ ("model", .name "model"),
      ("data", squadDataArg),
      ("trainer", .name "trainer"),
      ("optim", optimArg),
      ("peft", .call (.attr (.attr (.name "llm") "peft") "LoRA") []
        [ ("target_modules", .listLit [.strLit "*_proj"]),
          ("dim", .intLit 8) ] []),
      ("log", .noneLit) ] [])

/-- Cell 7: the PEFT variant of the finetune call. -/
def cell7 : List PyStmt := [finetunePeftStmt]

/-- The f-string expression both Step 3 and Step 4 interpolate max_steps
into: the checkpoint subdirectory path relative to ckpt_folder. -/
def ckptSubdirExpr : PyExpr :=
  .fstring "default--val_loss=0.0000-epoch=1-step=" (.name "max_steps") "-last/hf_weights"

/-- new_checkpoint = Path(ckpt_folder) / the f-string, as written identically
in Step 3 and Step 4. -/
def newCheckpointAssign : PyStmt :=
  .assign (.name "new_checkpoint")
    (.binop "/" (.call (.name "Path") [.name "ckpt_folder"] [] []) ckptSubdirExpr)

/-- pipe = pipeline("text-generation", model=..., tokenizer=..., ...):
the inference pipeline of Step 3, reloading the exported weights. -/
def pipeAssign : PyStmt :=
  .assign (.name "pipe")
    (.call (.name "pipeline") [.strLit "text-generation"]
      [ ("model", .call (.attr (.name "AutoModelForCausalLM") "from_pretrained")
          [.name "new_checkpoint"] [] []),
        ("tokenizer", .call (.attr (.name "AutoTokenizer") "from_pretrained")
          [.name "new_checkpoint"] [] []),
        ("torch_dtype", .attr (.name "torch") "bfloat16"),
        ("device_map", .strLit "auto") ] [])

/-- pipe("The key to life is"): running the text-generation pipeline. -/
def pipeRunStmt : PyStmt :=
  .exprStmt (.call (.name "pipe") [.strLit "The key to life is"] [] [])

/-- Cell 8 (Step 3): reload the exported weights and run inference. -/
def cell8 : List PyStmt :=
  [ .importMod "torch" none,
    .importMod "os" none,
    .importFrom "pathlib" [("Path", none)],
    .importFrom "transformers"
      [("pipeline", none), ("AutoModelForCausalLM", none), ("AutoTokenizer", none)],
    newCheckpointAssign,
    pipeAssign,
    pipeRunStmt ]

/-- AutoModelForCausalLM.from_pretrained(new_checkpoint).push_to_hub(...):
the hub upload of Step 4. -/
def pushToHubStmt : PyStmt :=
  .exprStmt (.call
    (.attr (.call (.attr (.name "AutoModelForCausalLM") "from_pretrained")
      [.name "new_checkpoint"] [] []) "push_to_hub")
    [.strLit "<account/your-hf-repo>"] [] [])

/-- Cell 9 (Step 4): publish the finetuned model on the hub. -/
def cell9 : List PyStmt :=
  [ .importMod "torch" none,
    .importMod "os" none,
    .importFrom "pathlib" [("Path", none)],
    .importFrom "transformers" [("AutoModelForCausalLM", none)],
    newCheckpointAssign,
    pushToHubStmt ]

/-- The whole notebook, its code cells in order, flattened into the
top-level statement sequence. -/
def script : List PyStmt :=
  cell1 ++ cell2 ++ cell3 ++ cell4 ++ cell5 ++ cell6 ++ cell7 ++ cell8 ++ cell9

/-! ## Scans over the AST

Every scan is fuel-indexed (structural recursion on the fuel) so that it
reduces inside the kernel; scanFuel is far above the notebook's AST depth. -/

/-- Fuel constant for the AST scans. -/
def scanFuel : Nat := 100

/-- The dotted rendering of a name/attribute chain, none for other shapes. -/
def dottedName : Nat → PyExpr → Option String
  | 0, _ => none
  | _ + 1, .name x => some x
  | fl + 1, .attr o f =>
      match dottedName fl o with
      | some s => some (s ++ "." ++ f)
      | none => none
  | _ + 1, _ => none

/-- The target name of a call: the dotted chain when the callee is one, the
final attribute name when the callee is a method of a computed receiver. -/
def callHead (fl : Nat) (fn : PyExpr) : String :=
  match dottedName fl fn with
  | some s => s
  | none =>
      match fn with
      | .attr _ f => f
      | _ => "?"

/-- All call-target names inside an expression, arguments before the call
itself (Python evaluation order). -/
def exprCalls : Nat → PyExpr → List String
  | 0, _ => []
  | fl + 1, e =>
      match e with
      | .attr o _ => exprCalls fl o
      | .subscript o i => exprCalls fl o ++ exprCalls fl i
      | .call fn args kwargs _ =>
          exprCalls fl fn ++
          (args.map (exprCalls fl)).flatten ++
          (kwargs.map (fun p => exprCalls fl p.2)).flatten ++
          [callHead fl fn]
      | .binop _ a b => exprCalls fl a ++ exprCalls fl b
      | .ifExp b t o => exprCalls fl b ++ exprCalls fl t ++ exprCalls fl o
      | .listLit es => (es.map (exprCalls fl)).flatten
      | .dictLit es => (es.map (fun p => exprCalls fl p.2)).flatten
      | .fstring _ i _ => exprCalls fl i
      | _ => []

/-- All call-target names inside a statement, recursing into every nested
body (conditionals, function and class definitions, handlers, loops). -/
def stmtCalls : Nat → PyStmt → List String
  | 0, _ => []
  | fl + 1, s =>
      match s with
      | .assign t v => exprCalls scanFuel t ++ exprCalls scanFuel v
      | .exprStmt e => exprCalls scanFuel e
      | .ret e => exprCalls scanFuel e
      | .ifStmt c b1 b2 =>
          exprCalls scanFuel c ++
          (b1.map (stmtCalls fl)).flatten ++
          (b2.map (stmtCalls fl)).flatten
      | .funcDef _ _ ds _ _ body =>
          (ds.map (fun p => exprCalls scanFuel p.2)).flatten ++
          (body.map (stmtCalls fl)).flatten
      | .classDef _ base body =>
          exprCalls scanFuel base ++
          (body.map (stmtCalls fl)).flatten
      | .tryExcept b hs =>
          (b.map (stmtCalls fl)).flatten ++
          (hs.map (fun h => (h.2.map (stmtCalls fl)).flatten)).flatten
      | .whileLoop c b =>
          exprCalls scanFuel c ++ (b.map (stmtCalls fl)).flatten
      | .forLoop _ it b =>
          exprCalls scanFuel it ++ (b.map (stmtCalls fl)).flatten
      | .withStmt c b =>
          exprCalls scanFuel c ++ (b.map (stmtCalls fl)).flatten
      | .raiseStmt e => exprCalls scanFuel e
      | _ => []

/-- Every call-target name appearing anywhere in the notebook, in order. -/
def callTargets (prog : List PyStmt) : List String :=
  (prog.map (stmtCalls scanFuel)).flatten

/-- The environment key accessed when an expression is exactly
os.environ[string literal], none otherwise. -/
def envKeyOf : PyExpr → Option String
  | .subscript (.attr (.name "os") "environ") (.strLit k) => some k
  | _ => none

/-- Environment keys read inside an expression: every os.environ[k]
occurring in value position. -/
def exprEnvReads : Nat → PyExpr → List String
  | 0, _ => []
  | fl + 1, e =>
      match envKeyOf e with
      | some k => [k]
      | none =>
          match e with
          | .attr o _ => exprEnvReads fl o
          | .subscript o i => exprEnvReads fl o ++ exprEnvReads fl i
          | .call fn args kwargs _ =>
              exprEnvReads fl fn ++
              (args.map (exprEnvReads fl)).flatten ++
              (kwargs.map (fun p => exprEnvReads fl p.2)).flatten
          | .binop _ a b => exprEnvReads fl a ++ exprEnvReads fl b
          | .ifExp b t o => exprEnvReads fl b ++ exprEnvReads fl t ++ exprEnvReads fl o
          | .listLit es => (es.map (exprEnvReads fl)).flatten
          | .dictLit es => (es.map (fun p => exprEnvReads fl p.2)).flatten
          | .fstring _ i _ => exprEnvReads fl i
          | _ => []

/-- Environment keys a statement writes: assignment targets of the shape
os.environ[k], anywhere in the statement. -/
def stmtEnvWrites : Nat → PyStmt → List String
  | 0, _ => []
  | fl + 1, s =>
      match s with
      | .assign t _ => (envKeyOf t).toList
      | .ifStmt _ b1 b2 =>
          (b1.map (stmtEnvWrites fl)).flatten ++ (b2.map (stmtEnvWrites fl)).flatten
      | .funcDef _ _ _ _ _ body => (body.map (stmtEnvWrites fl)).flatten
      | .classDef _ _ body => (body.map (stmtEnvWrites fl)).flatten
      | .tryExcept b hs =>
          (b.map (stmtEnvWrites fl)).flatten ++
          (hs.map (fun h => (h.2.map (stmtEnvWrites fl)).flatten)).flatten
      | .whileLoop _ b => (b.map (stmtEnvWrites fl)).flatten
      | .forLoop _ _ b => (b.map (stmtEnvWrites fl)).flatten
      | .withStmt _ b => (b.map (stmtEnvWrites fl)).flatten
      | _ => []

/-- Environment keys a statement reads, anywhere in the statement: an
assignment whose target is os.environ[k] stores there, so its target is not
a read; every other position is. -/
def stmtEnvReads : Nat → PyStmt → List String
  | 0, _ => []
  | fl + 1, s =>
      match s with
      | .assign t v =>
          (match envKeyOf t with
           | some _ => []
           | none => exprEnvReads scanFuel t) ++ exprEnvReads scanFuel v
      | .exprStmt e => exprEnvReads scanFuel e
      | .ret e => exprEnvReads scanFuel e
      | .ifStmt c b1 b2 =>
          exprEnvReads scanFuel c ++
          (b1.map (stmtEnvReads fl)).flatten ++ (b2.map (stmtEnvReads fl)).flatten
      | .funcDef _ _ ds _ _ body =>
          (ds.map (fun p => exprEnvReads scanFuel p.2)).flatten ++
          (body.map (stmtEnvReads fl)).flatten
      | .classDef _ base body =>
          exprEnvReads scanFuel base ++ (body.map (stmtEnvReads fl)).flatten
      | .tryExcept b hs =>
          (b.map (stmtEnvReads fl)).flatten ++
          (hs.map (fun h => (h.2.map (stmtEnvReads fl)).flatten)).flatten
      | .whileLoop c b =>
          exprEnvReads scanFuel c ++ (b.map (stmtEnvReads fl)).flatten
      | .forLoop _ it b =>
          exprEnvReads scanFuel it ++ (b.map (stmtEnvReads fl)).flatten
      | .withStmt c b =>
          exprEnvReads scanFuel c ++ (b.map (stmtEnvReads fl)).flatten
      | .raiseStmt e => exprEnvReads scanFuel e
      | _ => []

/-- All environment writes authored in the notebook, in order. -/
def envWritesOf (prog : List PyStmt) : List String :=
  (prog.map (stmtEnvWrites scanFuel)).flatten

/-- All environment reads authored in the notebook, in order. -/
def envReadsOf (prog : List PyStmt) : List String :=
  (prog.map (stmtEnvReads scanFuel)).flatten

/-- How many statements anywhere in a statement tree (itself included)
satisfy a predicate. -/
def stmtCountWhere (p : PyStmt → Bool) : Nat → PyStmt → Nat
  | 0, _ => 0
  | fl + 1, s =>
      (if p s then 1 else 0) +
      match s with
      | .ifStmt _ b1 b2 =>
          (b1.map (stmtCountWhere p fl)).sum + (b2.map (stmtCountWhere p fl)).sum
      | .funcDef _ _ _ _ _ body => (body.map (stmtCountWhere p fl)).sum
      | .classDef _ _ body => (body.map (stmtCountWhere p fl)).sum
      | .tryExcept b hs =>
          (b.map (stmtCountWhere p fl)).sum +
          (hs.map (fun h => (h.2.map (stmtCountWhere p fl)).sum)).sum
      | .whileLoop _ b => (b.map (stmtCountWhere p fl)).sum
      | .forLoop _ _ b => (b.map (stmtCountWhere p fl)).sum
      | .withStmt _ b => (b.map (stmtCountWhere p fl)).sum
      | _ => 0

/-- How many statements anywhere in the program satisfy a predicate. -/
def progCountWhere (p : PyStmt → Bool) (prog : List PyStmt) : Nat :=
  (prog.map (stmtCountWhere p scanFuel)).sum

/-- try/except statements. -/
def PyStmt.isTry : PyStmt → Bool
  | .tryExcept _ _ => true
  | _ => false

/-- Loop statements (while or for). -/
def PyStmt.isLoop : PyStmt → Bool
  | .whileLoop _ _ => true
  | .forLoop _ _ _ => true
  | _ => false

/-- with statements. -/
def PyStmt.isWith : PyStmt → Bool
  | .withStmt _ _ => true
  | _ => false

/-- raise statements. -/
def PyStmt.isRaise : PyStmt → Bool
  | .raiseStmt _ => true
  | _ => false

/-- Look a keyword argument up in a call's keyword list. -/
def kwLookup (k : String) : List (String × PyExpr) → Option PyExpr
  | [] => none
  | (k', v) :: rest => if k' = k then some v else kwLookup k rest

/-- The keyword argument a call expression passes under a given name. -/
def kwargOf (e : PyExpr) (k : String) : Option PyExpr :=
  match e with
  | .call _ _ kwargs _ => kwLookup k kwargs
  | _ => none

/-- The positional arguments of a call expression. -/
def argsOf : PyExpr → List PyExpr
  | .call _ args _ _ => args
  | _ => []

/-- All variable names referenced inside an expression. -/
def exprNames : Nat → PyExpr → List String
  | 0, _ => []
  | fl + 1, e =>
      match e with
      | .name x => [x]
      | .attr o _ => exprNames fl o
      | .subscript o i => exprNames fl o ++ exprNames fl i
      | .call fn args kwargs _ =>
          exprNames fl fn ++
          (args.map (exprNames fl)).flatten ++
          (kwargs.map (fun p => exprNames fl p.2)).flatten
      | .binop _ a b => exprNames fl a ++ exprNames fl b
      | .ifExp b t o => exprNames fl b ++ exprNames fl t ++ exprNames fl o
      | .listLit es => (es.map (exprNames fl)).flatten
      | .dictLit es => (es.map (fun p => exprNames fl p.2)).flatten
      | .fstring _ i _ => exprNames fl i
      | _ => []

/-- The argument lists of every call to a method named from_pretrained
inside an expression, in order. -/
def exprFromPretrained : Nat → PyExpr → List (List PyExpr)
  | 0, _ => []
  | fl + 1, e =>
      match e with
      | .attr o _ => exprFromPretrained fl o
      | .subscript o i => exprFromPretrained fl o ++ exprFromPretrained fl i
      | .call fn args kwargs _ =>
          (match fn with
           | .attr _ "from_pretrained" => [args]
           | _ => []) ++
          exprFromPretrained fl fn ++
          (args.map (exprFromPretrained fl)).flatten ++
          (kwargs.map (fun p => exprFromPretrained fl p.2)).flatten
      | .binop _ a b => exprFromPretrained fl a ++ exprFromPretrained fl b
      | .ifExp b t o =>
          exprFromPretrained fl b ++ exprFromPretrained fl t ++ exprFromPretrained fl o
      | .listLit es => (es.map (exprFromPretrained fl)).flatten
      | .dictLit es => (es.map (fun p => exprFromPretrained fl p.2)).flatten
      | .fstring _ i _ => exprFromPretrained fl i
      | _ => []

/-- The expressions a statement holds directly (no recursion into bodies);
paired with stmtCountWhere-style recursion where needed. -/
def stmtTopExprs : PyStmt → List PyExpr
  | .assign t v => [t, v]
  | .exprStmt e => [e]
  | .ret e => [e]
  | .ifStmt c _ _ => [c]
  | .funcDef _ _ ds _ _ _ => ds.map (fun p => p.2)
  | .classDef _ base _ => [base]
  | .whileLoop c _ => [c]
  | .forLoop _ it _ => [it]
  | .withStmt c _ => [c]
  | .raiseStmt e => [e]
  | _ => []

/-- The from_pretrained argument lists of a whole statement tree. -/
def stmtFromPretrained : Nat → PyStmt → List (List PyExpr)
  | 0, _ => []
  | fl + 1, s =>
      ((stmtTopExprs s).map (exprFromPretrained scanFuel)).flatten ++
      match s with
      | .ifStmt _ b1 b2 =>
          (b1.map (stmtFromPretrained fl)).flatten ++
          (b2.map (stmtFromPretrained fl)).flatten
      | .funcDef _ _ _ _ _ body => (body.map (stmtFromPretrained fl)).flatten
      | .classDef _ _ body => (body.map (stmtFromPretrained fl)).flatten
      | .tryExcept b hs =>
          (b.map (stmtFromPretrained fl)).flatten ++
          (hs.map (fun h => (h.2.map (stmtFromPretrained fl)).flatten)).flatten
      | .whileLoop _ b => (b.map (stmtFromPretrained fl)).flatten
      | .forLoop _ _ b => (b.map (stmtFromPretrained fl)).flatten
      | .withStmt _ b => (b.map (stmtFromPretrained fl)).flatten
      | _ => []

/-- Every from_pretrained argument list in the program, in order. -/
def fromPretrainedArgsOf (prog : List PyStmt) : List (List PyExpr) :=
  (prog.map (stmtFromPretrained scanFuel)).flatten

/-- A static Python value: the string and integer constants relevant to the
checkpoint-path computation. -/
inductive PyVal where
  | str (s : String)
  | int (n : Nat)
deriving DecidableEq, Repr

/-- Python str() on a static value: strings unchanged, integers in decimal
(as an f-string renders them). -/
def PyVal.render : PyVal → String
  | .str s => s
  | .int n => toString n

/-- The configuration-cell environment: the value each configuration
variable holds when Step 3 and Step 4 run. -/
def cfgVal : String → Option PyVal
  | "model_name" => some (.str model_name)
  | "max_steps" => some (.int max_steps)
  | "accelerator" => some (.str accelerator)
  | "num_devices" => some (.int num_devices)
  | "ckpt_folder" => some (.str ckpt_folder)
  | _ => none

/-- Static evaluation of the constant-valued expressions the notebook
builds from literals, configuration variables and f-strings. -/
def evalVal : Nat → PyExpr → Option PyVal
  | 0, _ => none
  | fl + 1, e =>
      match e with
      | .strLit s => some (.str s)
      | .intLit n => some (.int n)
      | .name x => cfgVal x
      | .fstring pre i post =>
          match evalVal fl i with
          | some v => some (.str (pre ++ v.render ++ post))
          | none => none
      | _ => none

/-- The checkpoint subdirectory (relative to ckpt_folder) that Step 3 and
Step 4 read the exported weights from. -/
def ckptSubdirName : String :=
  "default--val_loss=0.0000-epoch=1-step=100-last/hf_weights"

/-- An expression whose static value is exactly the checkpoint subdirectory
path: such an expression constructs the checkpoint subdirectory name. -/
def buildsCkptSubdir (e : PyExpr) : Bool :=
  evalVal scanFuel e == some (.str ckptSubdirName)

/-- How many subexpressions of an expression (itself included) satisfy a
predicate. -/
def exprCountWhere (p : PyExpr → Bool) : Nat → PyExpr → Nat
  | 0, _ => 0
  | fl + 1, e =>
      (if p e then 1 else 0) +
      match e with
      | .attr o _ => exprCountWhere p fl o
      | .subscript o i => exprCountWhere p fl o + exprCountWhere p fl i
      | .call fn args kwargs _ =>
          exprCountWhere p fl fn +
          (args.map (exprCountWhere p fl)).sum +
          (kwargs.map (fun q => exprCountWhere p fl q.2)).sum
      | .binop _ a b => exprCountWhere p fl a + exprCountWhere p fl b
      | .ifExp b t o =>
          exprCountWhere p fl b + exprCountWhere p fl t + exprCountWhere p fl o
      | .listLit es => (es.map (exprCountWhere p fl)).sum
      | .dictLit es => (es.map (fun q => exprCountWhere p fl q.2)).sum
      | .fstring _ i _ => exprCountWhere p fl i
      | _ => 0

/-- How many expressions anywhere in a statement tree satisfy a predicate. -/
def stmtExprCountWhere (p : PyExpr → Bool) : Nat → PyStmt → Nat
  | 0, _ => 0
  | fl + 1, s =>
      ((stmtTopExprs s).map (exprCountWhere p scanFuel)).sum +
      match s with
      | .ifStmt _ b1 b2 =>
          (b1.map (stmtExprCountWhere p fl)).sum + (b2.map (stmtExprCountWhere p fl)).sum
      | .funcDef _ _ _ _ _ body => (body.map (stmtExprCountWhere p fl)).sum
      | .classDef _ _ body => (body.map (stmtExprCountWhere p fl)).sum
      | .tryExcept b hs =>
          (b.map (stmtExprCountWhere p fl)).sum +
          (hs.map (fun h => (h.2.map (stmtExprCountWhere p fl)).sum)).sum
      | .whileLoop _ b => (b.map (stmtExprCountWhere p fl)).sum
      | .forLoop _ _ b => (b.map (stmtExprCountWhere p fl)).sum
      | .withStmt _ b => (b.map (stmtExprCountWhere p fl)).sum
      | _ => 0

/-- How many expressions anywhere in the program satisfy a predicate. -/
def progExprCountWhere (p : PyExpr → Bool) (prog : List PyStmt) : Nat :=
  (prog.map (stmtExprCountWhere p scanFuel)).sum

/-- The names of the methods a class body defines directly. -/
def classMethods : PyStmt → List String
  | .classDef _ _ body =>
      body.filterMap (fun s =>
        match s with
        | .funcDef nm _ _ _ _ _ => some nm
        | _ => none)
  | _ => []

/-- The class-level attribute assignments a class body makes directly. -/
def classAttrAssigns : PyStmt → List PyExpr
  | .classDef _ _ body =>
      body.filterMap (fun s =>
        match s with
        | .assign t _ => some t
        | _ => none)
  | _ => []

/-- The statements of a class body that are neither a method definition nor
an assignment (for the notebook's class: exactly its docstring). -/
def classOtherStmts : PyStmt → List PyStmt
  | .classDef _ _ body =>
      body.filter (fun s =>
        match s with
        | .funcDef _ _ _ _ _ _ => false
        | .assign _ _ => false
        | _ => true)
  | _ => []

/-- The dotted name of a class's base expression. -/
def classBaseName : PyStmt → Option String
  | .classDef _ base _ => dottedName scanFuel base
  | _ => none

/-- The right-hand side of an assignment statement. -/
def assignRhs : PyStmt → Option PyExpr
  | .assign _ v => some v
  | _ => none

/-- The positional arguments of the call a statement performs (an
assignment's right-hand side or an expression statement). -/
def callArgsOfStmt : PyStmt → List PyExpr
  | .assign _ v => argsOf v
  | .exprStmt e => argsOf e
  | _ => []

/-- The keyword argument (under a given name) of the call a statement
performs. -/
def callKwargOfStmt (s : PyStmt) (k : String) : Option PyExpr :=
  match s with
  | .assign _ v => kwargOf v k
  | .exprStmt e => kwargOf e k
  | _ => none

/-! ## Claims C2 through C8: the notebook's structure -/

/-- C2: SquadDataModuleWithPthDataloader subclasses the external
llm.SquadDataModule and defines exactly one method, _create_dataloader,
whose body is a single return of a DataLoader built from the module's
num_workers, pin_memory and persistent_workers, the dataset's own
collate_fn, and batch_size = the module's micro_batch_size, forwarding the
remaining **kwargs; no class attribute and no other method is defined (the
only other body statement is the docstring), and the construction does not
depend on the mode argument, so every dataset and mode gets the same
DataLoader construction. -/
theorem squad_datamodule_single_override :
    classBaseName squadClassDef = some "llm.SquadDataModule" ∧
    classMethods squadClassDef = ["_create_dataloader"] ∧
    classAttrAssigns squadClassDef = [] ∧
    classOtherStmts squadClassDef =
      [.exprStmt (.strLit "Creates a squad dataset with a PT dataloader")] ∧
    createDataloaderDef =
      .funcDef "_create_dataloader" ["self", "dataset", "mode"] [] (some "kwargs")
        (some "DataLoader") [.ret dataLoaderCall] ∧
    argsOf dataLoaderCall = [.name "dataset"] ∧
    kwargOf dataLoaderCall "num_workers" = some (.attr (.name "self") "num_workers") ∧
    kwargOf dataLoaderCall "pin_memory" = some (.attr (.name "self") "pin_memory") ∧
    kwargOf dataLoaderCall "persistent_workers" =
      some (.attr (.name "self") "persistent_workers") ∧
    kwargOf dataLoaderCall "collate_fn" = some (.attr (.name "dataset") "collate_fn") ∧
    kwargOf dataLoaderCall "batch_size" = some (.attr (.name "self") "micro_batch_size") ∧
    "mode" ∉ exprNames scanFuel dataLoaderCall :=
  ⟨rfl, rfl, rfl, rfl, rfl, rfl, rfl, rfl, rfl, rfl, rfl, by decide⟩

/-- C3 counterexample: the notebook never reads os.environ — in particular
HF_TOKEN is not obtained by reading the process environment, so the claim
that the HF_TOKEN boundary interaction is an environment read performed by
the notebook is false. -/
theorem hf_token_read_claim_false : "HF_TOKEN" ∉ envReadsOf script := by decide

/-- C3 (amended): the notebook's HF_TOKEN boundary interaction is a write of
the process environment, the assignment of the token placeholder to
os.environ["HF_TOKEN"]; it is the notebook's only environment write, and no
environment read is authored anywhere in the notebook (the external
libraries, not this code, read the variable back). -/
theorem hf_token_env_write :
    envWritesOf script = ["HF_TOKEN"] ∧
    envReadsOf script = [] ∧
    script[19]? = some hfTokenAssign ∧
    hfTokenAssign =
      .assign (.subscript (.attr (.name "os") "environ") (.strLit "HF_TOKEN"))
        (.strLit "<HF_TOKEN>") :=
  ⟨rfl, rfl, rfl, rfl⟩

/-- C4 counterexample: the notebook does construct the checkpoint
subdirectory name — two of its expressions (the f-strings of Step 3 and
Step 4) statically evaluate, under the configuration cell's values, to
exactly the checkpoint subdirectory path, so the count of such expressions
is not zero as the claim asserts. -/
theorem ckpt_subdir_external_claim_false :
    ¬ progExprCountWhere buildsCkptSubdir script = 0 := by decide

/-- C4 (amended): the checkpoint directory on disk is written by the
external checkpointing callback, but its exact subdirectory name is also
constructed by expressions authored in the notebook: Step 3 and Step 4 each
recompute new_checkpoint as Path(ckpt_folder) / an f-string interpolating
max_steps into the hard-coded pattern
default--val_loss=0.0000-epoch=1-step={max_steps}-last/hf_weights, which
evaluates to the subdirectory path for max_steps = 100; the notebook does
not discover the name by listing the filesystem (no directory-listing call
is authored). -/
theorem ckpt_subdir_constructed_in_notebook :
    progExprCountWhere buildsCkptSubdir script = 2 ∧
    script[34]? = some newCheckpointAssign ∧
    script[41]? = some newCheckpointAssign ∧
    newCheckpointAssign =
      .assign (.name "new_checkpoint")
        (.binop "/" (.call (.name "Path") [.name "ckpt_folder"] [] []) ckptSubdirExpr) ∧
    ckptSubdirExpr =
      .fstring "default--val_loss=0.0000-epoch=1-step=" (.name "max_steps")
        "-last/hf_weights" ∧
    evalVal scanFuel ckptSubdirExpr = some (.str ckptSubdirName) ∧
    ckptSubdirName = "default--val_loss=0.0000-epoch=1-step=100-last/hf_weights" ∧
    "os.listdir" ∉ callTargets script ∧
    "os.scandir" ∉ callTargets script ∧
    "glob.glob" ∉ callTargets script :=
  ⟨rfl, rfl, rfl, rfl, rfl, rfl, rfl, by decide, by decide, by decide⟩

/-- C5: the top-level script order — the model object is constructed
(position 25 of the flattened statement sequence) before the strategy
(26, whose make_strategy call consumes the model), the strategy before the
trainer (27, whose constructor consumes the strategy), the trainer before
the llm.api.finetune calls (28 SFT, 29 the PEFT variant with the LoRA
adapter, both consuming model, data and trainer), and only after finetune
does the notebook reload the exported weights with from_pretrained (35),
run the text-generation pipeline (36) and finally, as the last statement of
the notebook (42 of 43), call push_to_hub. -/
theorem script_operation_order :
    script.length = 43 ∧
    script[25]? = some modelAssign ∧
    script[26]? = some strategyAssign ∧
    script[27]? = some trainerAssign ∧
    script[28]? = some finetuneSftStmt ∧
    script[29]? = some finetunePeftStmt ∧
    script[34]? = some newCheckpointAssign ∧
    script[35]? = some pipeAssign ∧
    script[36]? = some pipeRunStmt ∧
    script[42]? = some pushToHubStmt ∧
    callArgsOfStmt strategyAssign =
      [.name "strategy", .name "model", .name "num_devices", .intLit 1] ∧
    callKwargOfStmt trainerAssign "strategy" = some (.name "strategy") ∧
    callKwargOfStmt finetuneSftStmt "model" = some (.name "model") ∧
    callKwargOfStmt finetuneSftStmt "data" = some squadDataArg ∧
    callKwargOfStmt finetuneSftStmt "trainer" = some (.name "trainer") ∧
    callKwargOfStmt finetuneSftStmt "peft" = some .noneLit ∧
    callKwargOfStmt finetunePeftStmt "peft" =
      some (.call (.attr (.attr (.name "llm") "peft") "LoRA") []
        [ ("target_modules", .listLit [.strLit "*_proj"]),
          ("dim", .intLit 8) ] []) ∧
    stmtFromPretrained scanFuel pipeAssign =
      [[.name "new_checkpoint"], [.name "new_checkpoint"]] ∧
    stmtFromPretrained scanFuel pushToHubStmt = [[.name "new_checkpoint"]] :=
  ⟨rfl, rfl, rfl, rfl, rfl, rfl, rfl, rfl, rfl, rfl, rfl, rfl, rfl, rfl, rfl, rfl,
    rfl, rfl, rfl⟩

/-- C6: no statement anywhere in the notebook (bodies of conditionals,
functions and the class included) is a try/except, a loop (so in particular
no retry loop), a with block, or a raise; with no handler, no retry and no
re-raise authored, an exception raised by an external library call
propagates out of the notebook unchanged under Python semantics. -/
theorem no_error_handling_authored :
    progCountWhere PyStmt.isTry script = 0 ∧
    progCountWhere PyStmt.isLoop script = 0 ∧
    progCountWhere PyStmt.isWith script = 0 ∧
    progCountWhere PyStmt.isRaise script = 0 :=
  ⟨rfl, rfl, rfl, rfl⟩

/-- C7: the notebook's boundary interactions are exactly the HF_TOKEN
environment write, the reads of the new_checkpoint directory (every
from_pretrained call in the file takes new_checkpoint as its argument), and
one push_to_hub call, standing as the final statement of the notebook and
applied to the model that the external transformers library reloads from
the checkpoint; the full list of call targets authored in the notebook
contains no other filesystem, environment or network primitive. -/
theorem boundary_interactions :
    envWritesOf script = ["HF_TOKEN"] ∧
    envReadsOf script = [] ∧
    fromPretrainedArgsOf script =
      [[.name "new_checkpoint"], [.name "new_checkpoint"], [.name "new_checkpoint"]] ∧
    (callTargets script).count "push_to_hub" = 1 ∧
    script.length = 43 ∧
    script[42]? = some pushToHubStmt ∧
    pushToHubStmt =
      .exprStmt (.call
        (.attr (.call (.attr (.name "AutoModelForCausalLM") "from_pretrained")
          [.name "new_checkpoint"] [] []) "push_to_hub")
        [.strLit "<account/your-hf-repo>"] [] []) ∧
    callTargets script =
      [ "DataLoader", "SquadDataModuleWithPthDataloader",
        "model.make_checkpoint_io", "pl.strategies.DDPStrategy",
        "model.make_checkpoint_io", "nl.FSDP2Strategy",
        "model.make_checkpoint_io", "pl.strategies.SingleDeviceStrategy",
        "WandbLogger", "JitConfig", "JitTransform", "nl.ModelCheckpoint",
        "callbacks.append", "llm.HFAutoModelForCausalLM", "make_strategy",
        "nl.Trainer", "llm.HFAutoModelForCausalLM.configure_tokenizer", "squad",
        "llm.adam.pytorch_adam_with_flat_lr", "fdl.build", "llm.api.finetune",
        "llm.HFAutoModelForCausalLM.configure_tokenizer", "squad",
        "llm.adam.pytorch_adam_with_flat_lr", "fdl.build", "llm.peft.LoRA",
        "llm.api.finetune", "Path", "AutoModelForCausalLM.from_pretrained",
        "AutoTokenizer.from_pretrained", "pipeline", "pipe", "Path",
        "AutoModelForCausalLM.from_pretrained", "push_to_hub" ] :=
  ⟨rfl, rfl, rfl, rfl, rfl, rfl, rfl, rfl⟩

/-- C8: each configuration value reaches its consumer verbatim, as the bare
configuration variable: model_name to llm.HFAutoModelForCausalLM and to
configure_tokenizer, num_devices to make_strategy and to
nl.Trainer(devices=...), max_steps to nl.Trainer(max_steps=...), and
ckpt_folder to nl.ModelCheckpoint(dirpath=...); the configuration cell
binds those variables to their literal values. -/
theorem config_passed_verbatim :
    script[10]? = some (.assign (.name "model_name") (.strLit "meta-llama/Llama-3.2-1B")) ∧
    script[12]? = some (.assign (.name "max_steps") (.intLit 100)) ∧
    script[14]? = some (.assign (.name "num_devices") (.intLit 2)) ∧
    script[17]? =
      some (.assign (.name "ckpt_folder")
        (.strLit "/opt/checkpoints/automodel_experiments/")) ∧
    callKwargOfStmt modelAssign "model_name" = some (.name "model_name") ∧
    configureTokenizerCall =
      .call (.attr (.attr (.name "llm") "HFAutoModelForCausalLM") "configure_tokenizer")
        [.name "model_name"] [] [] ∧
    argsOf squadDataArg = [configureTokenizerCall] ∧
    callArgsOfStmt strategyAssign =
      [.name "strategy", .name "model", .name "num_devices", .intLit 1] ∧
    callKwargOfStmt trainerAssign "devices" = some (.name "num_devices") ∧
    callKwargOfStmt trainerAssign "max_steps" = some (.name "max_steps") ∧
    kwargOf modelCheckpointCall "dirpath" = some (.name "ckpt_folder") ∧
    checkpointCallbackStmt =
      .exprStmt (.call (.attr (.name "callbacks") "append") [modelCheckpointCall] [] []) :=
  ⟨rfl, rfl, rfl, rfl, rfl, rfl, rfl, rfl, rfl, rfl, rfl, rfl⟩
